import Mathlib

/-!
# The SocketCAN node of myactuator_rmd_driver

A shallow embedding of `src/can/node.cpp`: the constructor and destructor of
`Node`, `Node::setRecvFilter`, `Node::read` and `Node::write`.

* 32-bit identifiers (`canid_t`, `std::uint32_t`) are natural numbers; the
  source only applies `&` and `|` to them, which never leave the 32-bit range.
* `std::array<std::uint8_t,8>` and `__u8 data[8]` are lists of exactly eight
  bytes (`Bytes8`).
* System calls are answered by an explicit environment (`SysRet`), and their
  visible effects are recorded in an explicit `World`: the open descriptors,
  `errno`, and the sequence of calls made.
* The stream operator for `can_frame` is declared in `can/output.hpp`, outside
  `node.cpp`; it is the parameter `render`.
* `std::strcpy` into `ifr.ifr_name` is unchecked in the source; the constructor
  has a defined outcome only for names shorter than `IFNAMSIZ`.
-/

set_option linter.dupNamespace false

namespace myactuator_rmd_driver
namespace can

/-! ## Constants of the Linux headers included by the source -/

/-- The error message frame flag of linux/can.h: bit 29 of the identifier. -/
def CAN_ERR_FLAG : Nat := 0x20000000

/-- The mask of linux/can.h that omits the EFF, RTR and ERR flags. -/
def CAN_ERR_MASK : Nat := 0x1FFFFFFF

/-- TX timeout (by netdevice driver), linux/can/error.h. -/
def CAN_ERR_TX_TIMEOUT : Nat := 0x00000001

/-- Lost arbitration, linux/can/error.h. -/
def CAN_ERR_LOSTARB : Nat := 0x00000002

/-- Controller problems, linux/can/error.h. -/
def CAN_ERR_CRTL : Nat := 0x00000004

/-- Protocol violations, linux/can/error.h. -/
def CAN_ERR_PROT : Nat := 0x00000008

/-- Transceiver status, linux/can/error.h. -/
def CAN_ERR_TRX : Nat := 0x00000010

/-- Received no ACK on transmission, linux/can/error.h. -/
def CAN_ERR_ACK : Nat := 0x00000020

/-- Bus off, linux/can/error.h. -/
def CAN_ERR_BUSOFF : Nat := 0x00000040

/-- Bus error (may flood), linux/can/error.h. -/
def CAN_ERR_BUSERROR : Nat := 0x00000080

/-- Controller restarted, linux/can/error.h. -/
def CAN_ERR_RESTARTED : Nat := 0x00000100

/-- The size of the name buffer `ifr_name` of `struct ifreq`, net/if.h. -/
def IFNAMSIZ : Nat := 16

/-- The value of `sizeof(struct can_frame)`: 4 + 1 + 3 + 8 bytes. -/
def sizeof_can_frame : Nat := 16

/-! ## Data model -/

/-- Overwrite the front of `dst` with the elements of `src`, one by one:
`std::copy(first, last, d_first)` on arrays. -/
def std_copy : List Nat → List Nat → List Nat
  | [], dst => dst
  | _ :: _, [] => []
  | s :: src, _ :: dst => s :: std_copy src dst

/-- Eight bytes: `std::array<std::uint8_t,8>` and `__u8 data[8]`. -/
structure Bytes8 where
  bytes : List Nat
  size_eq : bytes.length = 8
deriving DecidableEq

/-- Value initialisation `{}` of an array of eight bytes. -/
def Bytes8.zero : Bytes8 := ⟨List.replicate 8 0, by simp⟩

/-- The call `std::copy(std::begin(src), std::end(src), std::begin(dst))` on two
arrays of eight bytes; the result is the destination after the call. -/
def Bytes8.copy (src dst : Bytes8) : Bytes8 :=
  ⟨std_copy src.bytes dst.bytes, by
    have key : ∀ (s d : List Nat), s.length ≤ d.length → (std_copy s d).length = d.length := by
      intro s
      induction s with
      | nil => intro d _; rfl
      | cons a s ih =>
        intro d hd
        cases d with
        | nil => simp at hd
        | cons b d =>
          simp only [std_copy, List.length_cons]
          rw [ih d (by simpa using hd)]
    rw [key _ _ (by rw [src.size_eq, dst.size_eq]), dst.size_eq]⟩

/-- The classical CAN frame `struct can_frame` of linux/can.h. -/
structure can_frame where
  can_id : Nat
  len : Nat
  __pad : Nat
  __res0 : Nat
  len8_dlc : Nat
  data : Bytes8
deriving DecidableEq

/-- Value initialisation `struct ::can_frame frame {}`. -/
def can_frame.zero : can_frame :=
  { can_id := 0, len := 0, __pad := 0, __res0 := 0, len8_dlc := 0, data := Bytes8.zero }

/-- The receive filter `struct can_filter` of linux/can.h. -/
structure can_filter where
  can_id : Nat
  can_mask : Nat
deriving DecidableEq

/-- The exceptions of `can/exceptions.hpp` that the node throws, each with the
arguments the source constructs it from. -/
inductive Exception where
  | SocketException (code : Nat) (what : String)
  | TxTimeoutError (what : String)
  | LostArbitrationError (what : String)
  | ControllerProblemError (what : String)
  | ProtocolViolationError (what : String)
  | TransceiverStatusError (what : String)
  | NoAcknowledgeError (what : String)
  | BusOffError (what : String)
  | BusError (what : String)
  | ControllerRestartedError (what : String)
  | Exception (what : String)
deriving DecidableEq

/-- How a member function ends: it returns, it throws, or it runs into
behaviour the language leaves undefined. -/
inductive Outcome (α : Type) where
  | returns (a : α)
  | throws (e : Exception)
  | undefined
deriving DecidableEq

/-- The object state of `Node`: the interface name and the socket descriptor. -/
structure Node where
  ifname_ : String
  socket_ : Int
deriving DecidableEq

/-! ## The operating system as the node sees it -/

/-- The answer to one system call: its return value, and the value it stores
in `errno` when it fails. -/
structure SysRet where
  ret : Int
  err : Nat
deriving DecidableEq

/-- The system calls the node makes, with the arguments that vary. -/
inductive Syscall where
  | socket
  | ioctl (fd : Int) (ifr_name : List Char)
  | bind (fd : Int) (can_ifindex : Int)
  | setsockopt_err_filter (fd : Int) (err_mask : Nat)
  | setsockopt_filter (fd : Int) (filter : List can_filter)
  | read (fd : Int) (count : Nat)
  | write (fd : Int) (frame : can_frame) (count : Nat)
  | close (fd : Int)
deriving DecidableEq

/-- The part of the process state the node touches: the open descriptors,
`errno`, and the system calls made so far, oldest first. -/
structure World where
  open_fds : List Int
  errno : Nat
  trace : List Syscall
deriving DecidableEq

/-- Record a system call and its answer: a failing call stores its error in
`errno`, a successful one leaves `errno` alone. -/
def World.syscall (w : World) (c : Syscall) (r : SysRet) : World :=
  { w with errno := if r.ret < 0 then r.err else w.errno, trace := w.trace ++ [c] }

/-- The call `::socket(PF_CAN, SOCK_RAW, CAN_RAW)`: on success the returned
descriptor is open. -/
def sys_socket (w : World) (r : SysRet) : World :=
  let w1 := w.syscall Syscall.socket r
  if r.ret < 0 then w1 else { w1 with open_fds := r.ret :: w1.open_fds }

/-- The call `::close(fd)`: the descriptor is no longer open. -/
def sys_close (w : World) (fd : Int) : World :=
  { w with open_fds := w.open_fds.filter (fun d => d ≠ fd), trace := w.trace ++ [Syscall.close fd] }

/-- The characters `std::string::c_str` exposes to a C function: those before
the first NUL. -/
def c_str (s : String) : List Char := s.data.takeWhile (fun c => c ≠ Char.ofNat 0)

/-- The call `std::strcpy(dst, src)` into a buffer of `size` characters: the
buffer holds `src` afterwards when `src` and its terminating NUL fit, and the
call overruns the buffer otherwise. -/
def strcpy (size : Nat) (src : List Char) : Option (List Char) :=
  if src.length + 1 ≤ size then some src else none

/-- Conversion of a `ssize_t` to `size_t`, as the comparison of the result of
`::write` with `sizeof(struct ::can_frame)` performs it. -/
def to_size_t (r : Int) : Nat := (r % 18446744073709551616).toNat

/-- The answers of the operating system to the four calls of the constructor,
and the interface index `SIOCGIFINDEX` stores in `ifr` when it succeeds. -/
structure OpenEnv where
  socket : SysRet
  ioctl : SysRet
  ifr_ifindex : Int
  bind : SysRet
  setsockopt : SysRet
deriving DecidableEq

/-- The error mask the constructor passes to `CAN_RAW_ERR_FILTER`. -/
def err_mask : Nat :=
  CAN_ERR_TX_TIMEOUT ||| CAN_ERR_LOSTARB ||| CAN_ERR_CRTL ||| CAN_ERR_PROT ||| CAN_ERR_TRX |||
    CAN_ERR_ACK ||| CAN_ERR_BUSOFF ||| CAN_ERR_BUSERROR ||| CAN_ERR_RESTARTED

/-- The constructor `Node::Node(std::string const& ifname)`. A constructor that
throws leaves no object behind, and its destructor does not run. -/
def Node.constructor (env : OpenEnv) (w : World) (ifname : String) : World × Outcome Node :=
  let ifname_ := ifname
  let w1 := sys_socket w env.socket
  let socket_ := env.socket.ret
  if socket_ < 0 then
    (w1, Outcome.throws (Exception.SocketException w1.errno
      ("Interface '" ++ ifname_ ++ "' - Error creating socket")))
  else
    match strcpy IFNAMSIZ (c_str ifname) with
    | none => (w1, Outcome.undefined)
    | some ifr_name =>
      let w2 := w1.syscall (Syscall.ioctl socket_ ifr_name) env.ioctl
      if env.ioctl.ret < 0 then
        (w2, Outcome.throws (Exception.SocketException w2.errno
          ("Interface '" ++ ifname_ ++ "' - Error manipulating device parameters")))
      else
        let w3 := w2.syscall (Syscall.bind socket_ env.ifr_ifindex) env.bind
        if env.bind.ret < 0 then
          (w3, Outcome.throws (Exception.SocketException w3.errno
            ("Interface '" ++ ifname_ ++ "' - Error assigning address to socket")))
        else
          let w4 := w3.syscall (Syscall.setsockopt_err_filter socket_ err_mask) env.setsockopt
          if env.setsockopt.ret < 0 then
            (w4, Outcome.throws (Exception.SocketException w4.errno
              ("Interface '" ++ ifname_ ++ "' - Error setting error acknowledgement")))
          else
            (w4, Outcome.returns { ifname_ := ifname_, socket_ := socket_ })

/-- The destructor `Node::~Node()`. -/
def Node.destructor (node : Node) (w : World) : World :=
  sys_close w node.socket_

/-! ## Node::setRecvFilter (node.cpp, lines 65 to 77) -/

/-- The answer to the `::read` call of `Node::read`, and the contents of the
frame buffer after the call. -/
structure ReadEnv where
  res : SysRet
  frame : can_frame
deriving DecidableEq

/-- The member function `Node::read()`. -/
def Node.read (render : can_frame → String) (node : Node) (env : ReadEnv) (w : World) :
    World × Outcome Bytes8 :=
  let w1 := w.syscall (Syscall.read node.socket_ sizeof_can_frame) env.res
  if env.res.ret < 0 then
    (w1, Outcome.throws (Exception.SocketException w1.errno
      ("Interface '" ++ node.ifname_ ++ "' - Could not read CAN frame")))
  else
    let frame := env.frame
    if frame.can_id &&& CAN_ERR_FLAG ≠ 0 then
      let ss := render frame
      if frame.can_id &&& CAN_ERR_TX_TIMEOUT ≠ 0 then
        (w1, Outcome.throws (Exception.TxTimeoutError ""))
      else if frame.can_id &&& CAN_ERR_LOSTARB ≠ 0 then
        (w1, Outcome.throws (Exception.LostArbitrationError ("CAN frame '" ++ ss ++ "'")))
      else if frame.can_id &&& CAN_ERR_CRTL ≠ 0 then
        (w1, Outcome.throws (Exception.ControllerProblemError ("CAN frame '" ++ ss ++ "'")))
      else if frame.can_id &&& CAN_ERR_PROT ≠ 0 then
        (w1, Outcome.throws (Exception.ProtocolViolationError ("CAN frame '" ++ ss ++ "'")))
      else if frame.can_id &&& CAN_ERR_TRX ≠ 0 then
        (w1, Outcome.throws (Exception.TransceiverStatusError ("CAN frame '" ++ ss ++ "'")))
      else if frame.can_id &&& CAN_ERR_ACK ≠ 0 then
        (w1, Outcome.throws (Exception.NoAcknowledgeError ""))
      else if frame.can_id &&& CAN_ERR_BUSOFF ≠ 0 then
        (w1, Outcome.throws (Exception.BusOffError ""))
      else if frame.can_id &&& CAN_ERR_BUSERROR ≠ 0 then
        (w1, Outcome.throws (Exception.BusError ""))
      else if frame.can_id &&& CAN_ERR_RESTARTED ≠ 0 then
        (w1, Outcome.throws (Exception.ControllerRestartedError ""))
      else
        (w1, Outcome.throws (Exception.Exception
          ("Unknown CAN protocol error: CAN frame '" ++ ss ++ "'")))
    else
      let data : Bytes8 := Bytes8.zero
      let data := Bytes8.copy frame.data data
      (w1, Outcome.returns data)

/-! ## Node::write (node.cpp, lines 116 to 127) -/

/-- The frame `Node::write` builds before it calls `::write` (lines 117 to 120). -/
def Node.write_frame (data : Bytes8) (can_id : Nat) : can_frame :=
  let frame : can_frame := can_frame.zero
  let frame := { frame with can_id := can_id }
  let frame := { frame with len := 8 }
  { frame with data := Bytes8.copy data frame.data }

/-- The member function `Node::write(data, can_id)`; `res` is the answer to its
`::write` call. -/
def Node.write (render : can_frame → String) (node : Node) (res : SysRet) (w : World)
    (data : Bytes8) (can_id : Nat) : World × Outcome Unit :=
  let frame := Node.write_frame data can_id
  let w1 := w.syscall (Syscall.write node.socket_ frame sizeof_can_frame) res
  if to_size_t res.ret ≠ sizeof_can_frame then
    let ss := render frame
    (w1, Outcome.throws (Exception.SocketException w1.errno
      ("Interface '" ++ node.ifname_ ++ "' - Could not write CAN frame '" ++ ss ++ "'")))
  else
    (w1, Outcome.returns ())

/-! ## The fault taxonomy -/

/-- The fault conditions `Node::read` distinguishes, in the order of its chain
of tests, with the catch-all last. -/
inductive FaultCondition where
  | TxTimeout
  | LostArbitration
  | ControllerProblem
  | ProtocolViolation
  | TransceiverStatus
  | NoAcknowledge
  | BusOff
  | BusError
  | ControllerRestarted
  | UnknownProtocolError
deriving DecidableEq

/-- The fault condition an exception stands for; a `SocketException` reports a
failed system call and is no fault condition of the bus. -/
def fault_of : Exception → Option FaultCondition
  | Exception.SocketException _ _ => none
  | Exception.TxTimeoutError _ => some FaultCondition.TxTimeout
  | Exception.LostArbitrationError _ => some FaultCondition.LostArbitration
  | Exception.ControllerProblemError _ => some FaultCondition.ControllerProblem
  | Exception.ProtocolViolationError _ => some FaultCondition.ProtocolViolation
  | Exception.TransceiverStatusError _ => some FaultCondition.TransceiverStatus
  | Exception.NoAcknowledgeError _ => some FaultCondition.NoAcknowledge
  | Exception.BusOffError _ => some FaultCondition.BusOff
  | Exception.BusError _ => some FaultCondition.BusError
  | Exception.ControllerRestartedError _ => some FaultCondition.ControllerRestarted
  | Exception.Exception _ => some FaultCondition.UnknownProtocolError

/-- The message an exception was constructed with. -/
def message_of : Exception → String
  | Exception.SocketException _ m => m
  | Exception.TxTimeoutError m => m
  | Exception.LostArbitrationError m => m
  | Exception.ControllerProblemError m => m
  | Exception.ProtocolViolationError m => m
  | Exception.TransceiverStatusError m => m
  | Exception.NoAcknowledgeError m => m
  | Exception.BusOffError m => m
  | Exception.BusError m => m
  | Exception.ControllerRestartedError m => m
  | Exception.Exception m => m

/-- The priority order in the words of the specification: the nine named
classes, each with its error bit, highest priority first. -/
def fault_priority : List (Nat × FaultCondition) :=
  [ (CAN_ERR_TX_TIMEOUT, FaultCondition.TxTimeout),
    (CAN_ERR_LOSTARB, FaultCondition.LostArbitration),
    (CAN_ERR_CRTL, FaultCondition.ControllerProblem),
    (CAN_ERR_PROT, FaultCondition.ProtocolViolation),
    (CAN_ERR_TRX, FaultCondition.TransceiverStatus),
    (CAN_ERR_ACK, FaultCondition.NoAcknowledge),
    (CAN_ERR_BUSOFF, FaultCondition.BusOff),
    (CAN_ERR_BUSERROR, FaultCondition.BusError),
    (CAN_ERR_RESTARTED, FaultCondition.ControllerRestarted) ]

/-- The fault in the words of the specification: the first class of
`fault_priority` whose bit is set in the identifier, and the catch-all when
none of the nine bits is set. -/
def spec_fault (can_id : Nat) : FaultCondition :=
  match fault_priority.find? (fun p => decide (can_id &&& p.1 ≠ 0)) with
  | some p => p.2
  | none => FaultCondition.UnknownProtocolError

/-- The exception each branch of the chain in `Node::read` throws, by fault
condition; `ss` is the rendering of the received frame. -/
def exception_of (c : FaultCondition) (ss : String) : Exception :=
  match c with
  | FaultCondition.TxTimeout => Exception.TxTimeoutError ""
  | FaultCondition.LostArbitration => Exception.LostArbitrationError ("CAN frame '" ++ ss ++ "'")
  | FaultCondition.ControllerProblem => Exception.ControllerProblemError ("CAN frame '" ++ ss ++ "'")
  | FaultCondition.ProtocolViolation => Exception.ProtocolViolationError ("CAN frame '" ++ ss ++ "'")
  | FaultCondition.TransceiverStatus => Exception.TransceiverStatusError ("CAN frame '" ++ ss ++ "'")
  | FaultCondition.NoAcknowledge => Exception.NoAcknowledgeError ""
  | FaultCondition.BusOff => Exception.BusOffError ""
  | FaultCondition.BusError => Exception.BusError ""
  | FaultCondition.ControllerRestarted => Exception.ControllerRestartedError ""
  | FaultCondition.UnknownProtocolError =>
    Exception.Exception ("Unknown CAN protocol error: CAN frame '" ++ ss ++ "'")

/-- One string occurs inside another, as a run of consecutive characters. -/
def occurs_in (part whole : String) : Prop := part.data <:+: whole.data

/-- The error class bits of an identifier: what `CAN_ERR_MASK` leaves of it. -/
def error_class_bits (can_id : Nat) : Nat := can_id &&& CAN_ERR_MASK

/-- An identifier is that of an error frame whose error class bits are a
non-empty subset of `mask`. -/
def admitted_by (mask can_id : Nat) : Prop :=
  can_id &&& CAN_ERR_FLAG ≠ 0 ∧ error_class_bits can_id ≠ 0 ∧
    error_class_bits can_id &&& mask = error_class_bits can_id

instance (mask can_id : Nat) : Decidable (admitted_by mask can_id) := by
  unfold admitted_by
  infer_instance

/-- The frame of the last recorded system call when that call is a `::write`:
what a loopback channel delivers next. -/
def World.last_written (w : World) : Option can_frame :=
  match w.trace.getLast? with
  | some (Syscall.write _ frame _) => some frame
  | _ => none

/-! ## Sample inputs -/

/-- A rendering of frames for the examples: the identifier in decimal. -/
def sample_render (frame : can_frame) : String := Nat.repr frame.can_id

/-- A node on interface can0 that owns descriptor 3. -/
def sample_node : Node := { ifname_ := "can0", socket_ := 3 }

/-- A world in which descriptor 3 is open and nothing has been called yet. -/
def sample_world : World := { open_fds := [3], errno := 0, trace := [] }

/-- Eight payload bytes. -/
def sample_payload : Bytes8 := ⟨[0x9A, 0, 1, 2, 3, 4, 5, 0xFF], rfl⟩

/-- An error frame with only the bus-off bit set. -/
def busoff_frame : can_frame := { can_frame.zero with can_id := 0x20000040, len := 8 }

/-- An error frame with the lost-arbitration and bus-off bits set. -/
def lostarb_busoff_frame : can_frame := { can_frame.zero with can_id := 0x20000042, len := 8 }

/-- A data frame from actuator 1 with a payload and a length field of 3. -/
def reply_frame : can_frame :=
  { can_frame.zero with can_id := 0x241, len := 3, data := sample_payload }

/-- A successful read that delivers `frame`. -/
def delivers (frame : can_frame) : ReadEnv := { res := { ret := 16, err := 0 }, frame := frame }

/-- An operating system on which socket creation yields descriptor 3 and the
interface lookup fails with ENODEV (19). -/
def lookup_fails_env : OpenEnv :=
  { socket := { ret := 3, err := 0 }, ioctl := { ret := -1, err := 19 }, ifr_ifindex := 0,
    bind := { ret := 0, err := 0 }, setsockopt := { ret := 0, err := 0 } }

/-- An operating system on which all four calls of the constructor succeed;
the interface has index 4. -/
def all_succeed_env : OpenEnv :=
  { socket := { ret := 3, err := 0 }, ioctl := { ret := 0, err := 0 }, ifr_ifindex := 4,
    bind := { ret := 0, err := 0 }, setsockopt := { ret := 0, err := 0 } }

/-- A world with the three standard descriptors open and nothing called yet. -/
def fresh_world : World := { open_fds := [0, 1, 2], errno := 0, trace := [] }

/-! ## Auxiliary facts -/

theorem std_copy_same_length (s d : List Nat) (h : s.length = d.length) : std_copy s d = s := by
  induction s generalizing d with
  | nil => cases d with
    | nil => rfl
    | cons b d => simp at h
  | cons a s ih => cases d with
    | nil => simp at h
    | cons b d =>
      simp only [std_copy]
      rw [ih d (by simpa using h)]

theorem Bytes8.copy_eq_src (src dst : Bytes8) : Bytes8.copy src dst = src := by
  obtain ⟨s, hs⟩ := src
  obtain ⟨d, hd⟩ := dst
  simp only [Bytes8.copy, Bytes8.mk.injEq]
  exact std_copy_same_length s d (by rw [hs, hd])

theorem occurs_in_middle (a part b : String) : occurs_in part (a ++ part ++ b) := by
  refine ⟨a.data, b.data, ?_⟩
  simp [String.data_append]

theorem read_data_frame (render : can_frame → String) (node : Node) (env : ReadEnv) (w : World)
    (hread : 0 ≤ env.res.ret) (hflag : env.frame.can_id &&& CAN_ERR_FLAG = 0) :
    (Node.read render node env w).2 = Outcome.returns env.frame.data := by
  simp [Node.read, not_lt.mpr hread, hflag, Bytes8.copy_eq_src]

theorem read_error_frame (render : can_frame → String) (node : Node) (env : ReadEnv) (w : World)
    (hread : 0 ≤ env.res.ret) (hflag : env.frame.can_id &&& CAN_ERR_FLAG ≠ 0) :
    (Node.read render node env w).2 =
      Outcome.throws (exception_of (spec_fault env.frame.can_id) (render env.frame)) := by
  unfold Node.read
  simp only [if_neg (not_lt.mpr hread), if_pos hflag]
  simp only [spec_fault, fault_priority, List.find?]
  generalize env.frame.can_id &&& CAN_ERR_TX_TIMEOUT = b1
  generalize env.frame.can_id &&& CAN_ERR_LOSTARB = b2
  generalize env.frame.can_id &&& CAN_ERR_CRTL = b3
  generalize env.frame.can_id &&& CAN_ERR_PROT = b4
  generalize env.frame.can_id &&& CAN_ERR_TRX = b5
  generalize env.frame.can_id &&& CAN_ERR_ACK = b6
  generalize env.frame.can_id &&& CAN_ERR_BUSOFF = b7
  generalize env.frame.can_id &&& CAN_ERR_BUSERROR = b8
  generalize env.frame.can_id &&& CAN_ERR_RESTARTED = b9
  by_cases h1 : b1 = 0
  swap
  · simp [h1, exception_of]
  by_cases h2 : b2 = 0
  swap
  · simp [h1, h2, exception_of]
  by_cases h3 : b3 = 0
  swap
  · simp [h1, h2, h3, exception_of]
  by_cases h4 : b4 = 0
  swap
  · simp [h1, h2, h3, h4, exception_of]
  by_cases h5 : b5 = 0
  swap
  · simp [h1, h2, h3, h4, h5, exception_of]
  by_cases h6 : b6 = 0
  swap
  · simp [h1, h2, h3, h4, h5, h6, exception_of]
  by_cases h7 : b7 = 0
  swap
  · simp [h1, h2, h3, h4, h5, h6, h7, exception_of]
  by_cases h8 : b8 = 0
  swap
  · simp [h1, h2, h3, h4, h5, h6, h7, h8, exception_of]
  by_cases h9 : b9 = 0
  swap
  · simp [h1, h2, h3, h4, h5, h6, h7, h8, h9, exception_of]
  simp [h1, h2, h3, h4, h5, h6, h7, h8, h9, exception_of]

theorem fault_of_exception_of (c : FaultCondition) (ss : String) :
    fault_of (exception_of c ss) = some c := by
  cases c <;> rfl

/-! ## The contract of Node::read -/

/-- C1: when the socket read succeeds, `Node::read` throws if and only if the
error flag `CAN_ERR_FLAG` is set in the identifier of the received frame; what
it throws is then a fault condition, never a socket error, and without the flag
it returns payload bytes. -/
theorem read_throws_iff_error_flag (render : can_frame → String) (node : Node) (env : ReadEnv)
    (w : World) (hread : 0 ≤ env.res.ret) :
    ((∃ e, (Node.read render node env w).2 = Outcome.throws e ∧ (fault_of e).isSome = true) ↔
        env.frame.can_id &&& CAN_ERR_FLAG ≠ 0) ∧
      (env.frame.can_id &&& CAN_ERR_FLAG = 0 →
        ∃ data, (Node.read render node env w).2 = Outcome.returns data) := by
  constructor
  · constructor
    · rintro ⟨e, he, _⟩ hflag
      rw [read_data_frame render node env w hread hflag] at he
      cases he
    · intro hflag
      exact ⟨_, read_error_frame render node env w hread hflag, by
        rw [fault_of_exception_of]; rfl⟩
  · intro hflag
    exact ⟨_, read_data_frame render node env w hread hflag⟩

/-- Witness of C1 on a bus-off error frame. -/
theorem read_throws_iff_error_flag_witness :
    ((∃ e, (Node.read sample_render sample_node (delivers busoff_frame) sample_world).2 =
          Outcome.throws e ∧ (fault_of e).isSome = true) ↔
        (delivers busoff_frame).frame.can_id &&& CAN_ERR_FLAG ≠ 0) ∧
      ((delivers busoff_frame).frame.can_id &&& CAN_ERR_FLAG = 0 →
        ∃ data, (Node.read sample_render sample_node (delivers busoff_frame) sample_world).2 =
          Outcome.returns data) :=
  read_throws_iff_error_flag sample_render sample_node (delivers busoff_frame) sample_world
    (by decide)

/-- C2: for a received frame with the error flag set, the fault `Node::read`
raises is the first class in the order TxTimeout, LostArbitration,
ControllerProblem, ProtocolViolation, TransceiverStatus, NoAcknowledge, BusOff,
BusError, ControllerRestarted whose bit is set in the identifier, and the
catch-all when none of the nine bits is set; a frame whose identifier is the
error flag plus the bus-off bit alone makes it throw exactly `BusOffError`. -/
theorem read_fault_priority (render : can_frame → String) (node : Node) (env : ReadEnv)
    (w : World) (hread : 0 ≤ env.res.ret) (hflag : env.frame.can_id &&& CAN_ERR_FLAG ≠ 0) :
    (∃ e, (Node.read render node env w).2 = Outcome.throws e ∧
        fault_of e = some (spec_fault env.frame.can_id)) ∧
      (env.frame.can_id = CAN_ERR_FLAG ||| CAN_ERR_BUSOFF →
        (Node.read render node env w).2 = Outcome.throws (Exception.BusOffError "")) := by
  have key := read_error_frame render node env w hread hflag
  refine ⟨⟨_, key, fault_of_exception_of _ _⟩, ?_⟩
  intro hid
  rw [key, hid]
  rfl

/-- Witness of C2: a frame with the lost-arbitration and bus-off bits set
raises LostArbitration, the earlier of the two classes. -/
theorem read_fault_priority_witness :
    (∃ e, (Node.read sample_render sample_node (delivers lostarb_busoff_frame) sample_world).2 =
          Outcome.throws e ∧
        fault_of e = some (spec_fault (delivers lostarb_busoff_frame).frame.can_id)) ∧
      spec_fault (delivers lostarb_busoff_frame).frame.can_id = FaultCondition.LostArbitration :=
  ⟨(read_fault_priority sample_render sample_node (delivers lostarb_busoff_frame) sample_world
    (by decide) (by decide)).1, by decide⟩

/-- C3: for a received frame without the error flag, `Node::read` returns
exactly eight bytes, which are the bytes 0 to 7 of the frame's data in order;
the result is the same for every other frame without the error flag that
carries the same data, whatever its identifier and length field. -/
theorem read_returns_frame_data (render : can_frame → String) (node : Node) (env : ReadEnv)
    (w : World) (hread : 0 ≤ env.res.ret) (hflag : env.frame.can_id &&& CAN_ERR_FLAG = 0) :
    (∃ data, (Node.read render node env w).2 = Outcome.returns data ∧
        data.bytes.length = 8 ∧
        (∀ i, i < 8 → data.bytes[i]? = env.frame.data.bytes[i]?) ∧
        data = env.frame.data) ∧
      (∀ other : can_frame, other.data = env.frame.data → other.can_id &&& CAN_ERR_FLAG = 0 →
        (Node.read render node { res := env.res, frame := other } w).2 =
          (Node.read render node env w).2) := by
  constructor
  · exact ⟨env.frame.data, read_data_frame render node env w hread hflag,
      env.frame.data.size_eq, fun _ _ => rfl, rfl⟩
  · intro other hdata h2
    rw [read_data_frame render node env w hread hflag,
      read_data_frame render node { res := env.res, frame := other } w hread h2, hdata]

/-- Witness of C3 on a data frame whose length field is 3. -/
theorem read_returns_frame_data_witness :
    (∃ data, (Node.read sample_render sample_node (delivers reply_frame) sample_world).2 =
          Outcome.returns data ∧
        data.bytes.length = 8 ∧
        (∀ i, i < 8 → data.bytes[i]? = (delivers reply_frame).frame.data.bytes[i]?) ∧
        data = (delivers reply_frame).frame.data) ∧
      (∀ other : can_frame, other.data = (delivers reply_frame).frame.data →
        other.can_id &&& CAN_ERR_FLAG = 0 →
        (Node.read sample_render sample_node
            { res := (delivers reply_frame).res, frame := other } sample_world).2 =
          (Node.read sample_render sample_node (delivers reply_frame) sample_world).2) :=
  read_returns_frame_data sample_render sample_node (delivers reply_frame) sample_world
    (by decide) (by decide)

theorem spec_fault_named (can_id : Nat) (h : can_id &&& err_mask ≠ 0) :
    spec_fault can_id ≠ FaultCondition.UnknownProtocolError := by
  intro hu
  apply h
  simp only [err_mask, Nat.and_or_distrib_left]
  simp only [spec_fault, fault_priority, List.find?] at hu
  generalize can_id &&& CAN_ERR_TX_TIMEOUT = b1 at hu ⊢
  generalize can_id &&& CAN_ERR_LOSTARB = b2 at hu ⊢
  generalize can_id &&& CAN_ERR_CRTL = b3 at hu ⊢
  generalize can_id &&& CAN_ERR_PROT = b4 at hu ⊢
  generalize can_id &&& CAN_ERR_TRX = b5 at hu ⊢
  generalize can_id &&& CAN_ERR_ACK = b6 at hu ⊢
  generalize can_id &&& CAN_ERR_BUSOFF = b7 at hu ⊢
  generalize can_id &&& CAN_ERR_BUSERROR = b8 at hu ⊢
  generalize can_id &&& CAN_ERR_RESTARTED = b9 at hu ⊢
  by_cases h1 : b1 = 0
  swap
  · simp [h1] at hu
  by_cases h2 : b2 = 0
  swap
  · simp [h1, h2] at hu
  by_cases h3 : b3 = 0
  swap
  · simp [h1, h2, h3] at hu
  by_cases h4 : b4 = 0
  swap
  · simp [h1, h2, h3, h4] at hu
  by_cases h5 : b5 = 0
  swap
  · simp [h1, h2, h3, h4, h5] at hu
  by_cases h6 : b6 = 0
  swap
  · simp [h1, h2, h3, h4, h5, h6] at hu
  by_cases h7 : b7 = 0
  swap
  · simp [h1, h2, h3, h4, h5, h6, h7] at hu
  by_cases h8 : b8 = 0
  swap
  · simp [h1, h2, h3, h4, h5, h6, h7, h8] at hu
  by_cases h9 : b9 = 0
  swap
  · simp [h1, h2, h3, h4, h5, h6, h7, h8, h9] at hu
  simp [h1, h2, h3, h4, h5, h6, h7, h8, h9]

theorem message_nonempty (a ss b : String) (ha : a ≠ "") : a ++ ss ++ b ≠ "" := by
  intro h
  apply ha
  have hd := congrArg String.data h
  simp only [String.data_append, List.append_assoc] at hd
  have : a.data = [] := (List.append_eq_nil.mp hd).1
  exact String.ext_iff.mpr this

/-- C8: for a received frame with the error flag set, the exception thrown by
`Node::read` carries the rendering of the frame when its fault condition is
LostArbitration, ControllerProblem, ProtocolViolation, TransceiverStatus or the
catch-all, and has an empty message when it is TxTimeout, NoAcknowledge,
BusOff, BusError or ControllerRestarted. -/
theorem read_fault_message (render : can_frame → String) (node : Node) (env : ReadEnv)
    (w : World) (hread : 0 ≤ env.res.ret) (hflag : env.frame.can_id &&& CAN_ERR_FLAG ≠ 0) :
    ∃ e c, (Node.read render node env w).2 = Outcome.throws e ∧ fault_of e = some c ∧
      (c ∈ [FaultCondition.LostArbitration, FaultCondition.ControllerProblem,
            FaultCondition.ProtocolViolation, FaultCondition.TransceiverStatus] →
        message_of e = "CAN frame '" ++ render env.frame ++ "'") ∧
      (c = FaultCondition.UnknownProtocolError →
        message_of e = "Unknown CAN protocol error: CAN frame '" ++ render env.frame ++ "'") ∧
      (c ∈ [FaultCondition.LostArbitration, FaultCondition.ControllerProblem,
            FaultCondition.ProtocolViolation, FaultCondition.TransceiverStatus,
            FaultCondition.UnknownProtocolError] →
        occurs_in (render env.frame) (message_of e) ∧ message_of e ≠ "") ∧
      (c ∈ [FaultCondition.TxTimeout, FaultCondition.NoAcknowledge, FaultCondition.BusOff,
            FaultCondition.BusError, FaultCondition.ControllerRestarted] →
        message_of e = "") := by
  refine ⟨_, spec_fault env.frame.can_id, read_error_frame render node env w hread hflag,
    fault_of_exception_of _ _, ?_⟩
  generalize spec_fault env.frame.can_id = c
  have hocc := occurs_in_middle "CAN frame '" (render env.frame) "'"
  have hocc2 := occurs_in_middle "Unknown CAN protocol error: CAN frame '" (render env.frame) "'"
  have hne := message_nonempty "CAN frame '" (render env.frame) "'" (by decide)
  have hne2 := message_nonempty "Unknown CAN protocol error: CAN frame '" (render env.frame) "'"
    (by decide)
  cases c <;> simp [exception_of, message_of, hocc, hocc2, hne, hne2]

/-- Witness of C8 on a frame with the lost-arbitration and bus-off bits set. -/
theorem read_fault_message_witness :
    ∃ e c, (Node.read sample_render sample_node (delivers lostarb_busoff_frame) sample_world).2 =
        Outcome.throws e ∧ fault_of e = some c ∧
      (c ∈ [FaultCondition.LostArbitration, FaultCondition.ControllerProblem,
            FaultCondition.ProtocolViolation, FaultCondition.TransceiverStatus] →
        message_of e =
          "CAN frame '" ++ sample_render (delivers lostarb_busoff_frame).frame ++ "'") ∧
      (c = FaultCondition.UnknownProtocolError →
        message_of e = "Unknown CAN protocol error: CAN frame '" ++
          sample_render (delivers lostarb_busoff_frame).frame ++ "'") ∧
      (c ∈ [FaultCondition.LostArbitration, FaultCondition.ControllerProblem,
            FaultCondition.ProtocolViolation, FaultCondition.TransceiverStatus,
            FaultCondition.UnknownProtocolError] →
        occurs_in (sample_render (delivers lostarb_busoff_frame).frame) (message_of e) ∧
          message_of e ≠ "") ∧
      (c ∈ [FaultCondition.TxTimeout, FaultCondition.NoAcknowledge, FaultCondition.BusOff,
            FaultCondition.BusError, FaultCondition.ControllerRestarted] →
        message_of e = "") :=
  read_fault_message sample_render sample_node (delivers lostarb_busoff_frame) sample_world
    (by decide) (by decide)

/-! ## The constructor and the destructor -/

theorem ctor_lookup_fails (env : OpenEnv) (w : World) (ifname : String)
    (hfit : (c_str ifname).length < IFNAMSIZ) (hsock : 0 ≤ env.socket.ret)
    (hioctl : env.ioctl.ret < 0) :
    Node.constructor env w ifname =
      ({ open_fds := env.socket.ret :: w.open_fds, errno := env.ioctl.err,
         trace := w.trace ++ [Syscall.socket, Syscall.ioctl env.socket.ret (c_str ifname)] },
        Outcome.throws (Exception.SocketException env.ioctl.err
          ("Interface '" ++ ifname ++ "' - Error manipulating device parameters"))) := by
  have hfit2 : (c_str ifname).length + 1 ≤ IFNAMSIZ := hfit
  simp [Node.constructor, sys_socket, World.syscall, strcpy, not_lt.mpr hsock, hfit2, hioctl]

theorem ctor_bind_fails (env : OpenEnv) (w : World) (ifname : String)
    (hfit : (c_str ifname).length < IFNAMSIZ) (hsock : 0 ≤ env.socket.ret)
    (hioctl : 0 ≤ env.ioctl.ret) (hbind : env.bind.ret < 0) :
    Node.constructor env w ifname =
      ({ open_fds := env.socket.ret :: w.open_fds, errno := env.bind.err,
         trace := w.trace ++ [Syscall.socket, Syscall.ioctl env.socket.ret (c_str ifname),
           Syscall.bind env.socket.ret env.ifr_ifindex] },
        Outcome.throws (Exception.SocketException env.bind.err
          ("Interface '" ++ ifname ++ "' - Error assigning address to socket"))) := by
  have hfit2 : (c_str ifname).length + 1 ≤ IFNAMSIZ := hfit
  simp [Node.constructor, sys_socket, World.syscall, strcpy, not_lt.mpr hsock, hfit2,
    not_lt.mpr hioctl, hbind]

theorem ctor_mask_fails (env : OpenEnv) (w : World) (ifname : String)
    (hfit : (c_str ifname).length < IFNAMSIZ) (hsock : 0 ≤ env.socket.ret)
    (hioctl : 0 ≤ env.ioctl.ret) (hbind : 0 ≤ env.bind.ret) (hmask : env.setsockopt.ret < 0) :
    Node.constructor env w ifname =
      ({ open_fds := env.socket.ret :: w.open_fds, errno := env.setsockopt.err,
         trace := w.trace ++ [Syscall.socket, Syscall.ioctl env.socket.ret (c_str ifname),
           Syscall.bind env.socket.ret env.ifr_ifindex,
           Syscall.setsockopt_err_filter env.socket.ret err_mask] },
        Outcome.throws (Exception.SocketException env.setsockopt.err
          ("Interface '" ++ ifname ++ "' - Error setting error acknowledgement"))) := by
  have hfit2 : (c_str ifname).length + 1 ≤ IFNAMSIZ := hfit
  simp [Node.constructor, sys_socket, World.syscall, strcpy, not_lt.mpr hsock, hfit2,
    not_lt.mpr hioctl, not_lt.mpr hbind, hmask]

theorem ctor_succeeds (env : OpenEnv) (w : World) (ifname : String)
    (hfit : (c_str ifname).length < IFNAMSIZ) (hsock : 0 ≤ env.socket.ret)
    (hioctl : 0 ≤ env.ioctl.ret) (hbind : 0 ≤ env.bind.ret) (hmask : 0 ≤ env.setsockopt.ret) :
    Node.constructor env w ifname =
      ({ open_fds := env.socket.ret :: w.open_fds, errno := w.errno,
         trace := w.trace ++ [Syscall.socket, Syscall.ioctl env.socket.ret (c_str ifname),
           Syscall.bind env.socket.ret env.ifr_ifindex,
           Syscall.setsockopt_err_filter env.socket.ret err_mask] },
        Outcome.returns { ifname_ := ifname, socket_ := env.socket.ret }) := by
  have hfit2 : (c_str ifname).length + 1 ≤ IFNAMSIZ := hfit
  simp [Node.constructor, sys_socket, World.syscall, strcpy, not_lt.mpr hsock, hfit2,
    not_lt.mpr hioctl, not_lt.mpr hbind, not_lt.mpr hmask]

/-- The destructor closes the socket of the node: afterwards its descriptor is
not among the open ones, and the last system call is its `::close`. -/
theorem destructor_closes_socket (node : Node) (w : World) :
    node.socket_ ∉ (Node.destructor node w).open_fds ∧
      (Node.destructor node w).trace = w.trace ++ [Syscall.close node.socket_] := by
  simp [Node.destructor, sys_close]

/-- Whenever the constructor throws after the socket was created, the
descriptor it created is still open: none of the three throwing paths after
creation calls `::close`. -/
theorem ctor_failure_keeps_socket_open (env : OpenEnv) (w : World) (ifname : String)
    (hfit : (c_str ifname).length < IFNAMSIZ) (hsock : 0 ≤ env.socket.ret)
    (hfail : env.ioctl.ret < 0 ∨ env.bind.ret < 0 ∨ env.setsockopt.ret < 0) :
    (∃ e, (Node.constructor env w ifname).2 = Outcome.throws e) ∧
      (Node.constructor env w ifname).1.open_fds = env.socket.ret :: w.open_fds := by
  by_cases h1 : env.ioctl.ret < 0
  · rw [ctor_lookup_fails env w ifname hfit hsock h1]
    exact ⟨⟨_, rfl⟩, rfl⟩
  · by_cases h2 : env.bind.ret < 0
    · rw [ctor_bind_fails env w ifname hfit hsock (not_lt.mp h1) h2]
      exact ⟨⟨_, rfl⟩, rfl⟩
    · have h3 : env.setsockopt.ret < 0 := by
        rcases hfail with h | h | h
        · exact absurd h h1
        · exact absurd h h2
        · exact h
      rw [ctor_mask_fails env w ifname hfit hsock (not_lt.mp h1) (not_lt.mp h2) h3]
      exact ⟨⟨_, rfl⟩, rfl⟩

/-- C5, evaluated where the code departs from it: socket creation yields
descriptor 3, the lookup of nocan0 fails, and the constructor throws without
closing descriptor 3; the trace holds no `::close`, and descriptor 3 stays open
although it was not open before. -/
theorem ctor_lookup_failure_leaves_socket_open :
    Node.constructor lookup_fails_env fresh_world "nocan0" =
      ({ open_fds := [3, 0, 1, 2], errno := 19,
         trace := [Syscall.socket, Syscall.ioctl 3 "nocan0".data] },
        Outcome.throws (Exception.SocketException 19
          "Interface 'nocan0' - Error manipulating device parameters")) ∧
      (Node.constructor lookup_fails_env fresh_world "nocan0").1.open_fds ≠
        fresh_world.open_fds ∧
      fresh_world.open_fds = [0, 1, 2] := by
  have h := ctor_lookup_fails lookup_fails_env fresh_world "nocan0" (by decide) (by decide)
    (by decide)
  rw [h]
  decide

/-! ## The receive filter -/

theorem write_frame_eq (data : Bytes8) (can_id : Nat) :
    Node.write_frame data can_id =
      { can_id := can_id, len := 8, __pad := 0, __res0 := 0, len8_dlc := 0, data := data } := by
  simp [Node.write_frame, can_frame.zero, Bytes8.copy_eq_src]

theorem to_size_t_eq_iff (r : Int) (hlo : -9223372036854775808 ≤ r)
    (hhi : r < 9223372036854775808) : to_size_t r = sizeof_can_frame ↔ r = 16 := by
  unfold to_size_t sizeof_can_frame
  omega

theorem write_trace (render : can_frame → String) (node : Node) (res : SysRet) (w : World)
    (data : Bytes8) (can_id : Nat) :
    (Node.write render node res w data can_id).1.trace =
      w.trace ++ [Syscall.write node.socket_ (Node.write_frame data can_id) sizeof_can_frame] := by
  unfold Node.write
  by_cases h : to_size_t res.ret = sizeof_can_frame <;> simp [h, World.syscall]

/-- C7: `Node::write` makes exactly one `::write` call, with a frame of length
field 8 that has the given identifier and the given eight payload bytes. For
every result of that call that is a `ssize_t`, it throws if and only if the
result differs from `sizeof(struct can_frame)`; what it throws is a
`SocketException` whose message contains the interface name and the rendering
of that frame. -/
theorem write_contract (render : can_frame → String) (node : Node) (res : SysRet) (w : World)
    (data : Bytes8) (can_id : Nat) (hlo : -9223372036854775808 ≤ res.ret)
    (hhi : res.ret < 9223372036854775808) :
    (∃ frame : can_frame,
        (Node.write render node res w data can_id).1.trace =
          w.trace ++ [Syscall.write node.socket_ frame sizeof_can_frame] ∧
        frame.len = 8 ∧ frame.can_id = can_id ∧ frame.data = data ∧
        frame = Node.write_frame data can_id) ∧
      ((∃ e, (Node.write render node res w data can_id).2 = Outcome.throws e) ↔
        res.ret ≠ (sizeof_can_frame : Int)) ∧
      (res.ret = (sizeof_can_frame : Int) →
        (Node.write render node res w data can_id).2 = Outcome.returns ()) ∧
      (res.ret ≠ (sizeof_can_frame : Int) →
        ∃ code message,
          (Node.write render node res w data can_id).2 =
            Outcome.throws (Exception.SocketException code message) ∧
          message = "Interface '" ++ node.ifname_ ++ "' - Could not write CAN frame '" ++
            render (Node.write_frame data can_id) ++ "'" ∧
          occurs_in node.ifname_ message ∧
          occurs_in (render (Node.write_frame data can_id)) message) := by
  have hiff := to_size_t_eq_iff res.ret hlo hhi
  have hsz : ((sizeof_can_frame : Nat) : Int) = 16 := rfl
  refine ⟨⟨_, write_trace render node res w data can_id, ?_, ?_, ?_, rfl⟩, ?_, ?_, ?_⟩
  · rw [write_frame_eq]
  · rw [write_frame_eq]
  · rw [write_frame_eq]
  · rw [hsz]
    by_cases h : res.ret = 16
    · have h2 := hiff.mpr h
      have hout : (Node.write render node res w data can_id).2 = Outcome.returns () := by
        simp [Node.write, h2]
      rw [hout]
      simp [h]
    · have h2 : ¬ to_size_t res.ret = sizeof_can_frame := fun hc => h (hiff.mp hc)
      have hout : ∃ e, (Node.write render node res w data can_id).2 = Outcome.throws e := by
        simp [Node.write, h2]
      exact ⟨fun _ => h, fun _ => hout⟩
  · intro h
    have h2 := hiff.mpr (by rw [← hsz]; exact h)
    simp [Node.write, h2]
  · intro h
    have h2 : ¬ to_size_t res.ret = sizeof_can_frame := fun hc => h (by rw [hsz]; exact hiff.mp hc)
    refine ⟨(w.syscall (Syscall.write node.socket_ (Node.write_frame data can_id)
      sizeof_can_frame) res).errno, _, ?_, rfl, ?_, ?_⟩
    · simp only [Node.write, ne_eq, h2, not_false_eq_true, if_true]
    · refine ⟨"Interface '".data, ("' - Could not write CAN frame '" ++
        render (Node.write_frame data can_id) ++ "'").data, ?_⟩
      simp [String.data_append]
    · exact occurs_in_middle _ _ _

/-- Witness of C7: the channel accepts 8 of the 16 bytes of the frame. -/
theorem write_contract_witness :
    (∃ frame : can_frame,
        (Node.write sample_render sample_node { ret := 8, err := 0 } sample_world
            sample_payload 0x141).1.trace =
          sample_world.trace ++ [Syscall.write sample_node.socket_ frame sizeof_can_frame] ∧
        frame.len = 8 ∧ frame.can_id = 0x141 ∧ frame.data = sample_payload ∧
        frame = Node.write_frame sample_payload 0x141) ∧
      ((∃ e, (Node.write sample_render sample_node { ret := 8, err := 0 } sample_world
            sample_payload 0x141).2 = Outcome.throws e) ↔
        ({ ret := 8, err := 0 } : SysRet).ret ≠ (sizeof_can_frame : Int)) ∧
      (({ ret := 8, err := 0 } : SysRet).ret = (sizeof_can_frame : Int) →
        (Node.write sample_render sample_node { ret := 8, err := 0 } sample_world
            sample_payload 0x141).2 = Outcome.returns ()) ∧
      (({ ret := 8, err := 0 } : SysRet).ret ≠ (sizeof_can_frame : Int) →
        ∃ code message,
          (Node.write sample_render sample_node { ret := 8, err := 0 } sample_world
              sample_payload 0x141).2 =
            Outcome.throws (Exception.SocketException code message) ∧
          message = "Interface '" ++ sample_node.ifname_ ++ "' - Could not write CAN frame '" ++
            sample_render (Node.write_frame sample_payload 0x141) ++ "'" ∧
          occurs_in sample_node.ifname_ message ∧
          occurs_in (sample_render (Node.write_frame sample_payload 0x141)) message) :=
  write_contract sample_render sample_node { ret := 8, err := 0 } sample_world
    sample_payload 0x141 (by decide) (by decide)

/-! ## The error mask and the fault classes -/

theorem admitted_meets_mask (can_id : Nat) (h : admitted_by err_mask can_id) :
    can_id &&& err_mask ≠ 0 := by
  obtain ⟨_, hne, hsub⟩ := h
  unfold error_class_bits at hne hsub
  have hm : CAN_ERR_MASK &&& err_mask = err_mask := by decide
  rw [Nat.and_assoc, hm] at hsub
  rw [hsub]
  exact hne

theorem named_fault_has_admitted_frame (c : FaultCondition)
    (hc : c ≠ FaultCondition.UnknownProtocolError) :
    ∃ can_id : Nat, admitted_by err_mask can_id ∧ spec_fault can_id = c := by
  cases c with
  | TxTimeout => exact ⟨CAN_ERR_FLAG ||| CAN_ERR_TX_TIMEOUT, by decide, by decide⟩
  | LostArbitration => exact ⟨CAN_ERR_FLAG ||| CAN_ERR_LOSTARB, by decide, by decide⟩
  | ControllerProblem => exact ⟨CAN_ERR_FLAG ||| CAN_ERR_CRTL, by decide, by decide⟩
  | ProtocolViolation => exact ⟨CAN_ERR_FLAG ||| CAN_ERR_PROT, by decide, by decide⟩
  | TransceiverStatus => exact ⟨CAN_ERR_FLAG ||| CAN_ERR_TRX, by decide, by decide⟩
  | NoAcknowledge => exact ⟨CAN_ERR_FLAG ||| CAN_ERR_ACK, by decide, by decide⟩
  | BusOff => exact ⟨CAN_ERR_FLAG ||| CAN_ERR_BUSOFF, by decide, by decide⟩
  | BusError => exact ⟨CAN_ERR_FLAG ||| CAN_ERR_BUSERROR, by decide, by decide⟩
  | ControllerRestarted => exact ⟨CAN_ERR_FLAG ||| CAN_ERR_RESTARTED, by decide, by decide⟩
  | UnknownProtocolError => exact absurd rfl hc

/-- C9: the error mask the constructor passes to `CAN_RAW_ERR_FILTER` is 0x1FF,
the union of the nine class bits `Node::read` tests. For every successfully
read error frame whose error class bits are a non-empty subset of that mask,
`Node::read` throws one of the nine named faults and not the catch-all, and
each of the nine named faults is thrown for some frame the mask admits. -/
theorem err_mask_matches_fault_classes :
    err_mask = 0x1FF ∧
      err_mask = (fault_priority.map Prod.fst).foldl (fun a b => a ||| b) 0 ∧
      (∀ (env : OpenEnv) (w : World) (ifname : String),
        (c_str ifname).length < IFNAMSIZ → 0 ≤ env.socket.ret → 0 ≤ env.ioctl.ret →
        0 ≤ env.bind.ret →
        (Node.constructor env w ifname).1.trace =
          w.trace ++ [Syscall.socket, Syscall.ioctl env.socket.ret (c_str ifname),
            Syscall.bind env.socket.ret env.ifr_ifindex,
            Syscall.setsockopt_err_filter env.socket.ret 0x1FF]) ∧
      (∀ (render : can_frame → String) (node : Node) (env : ReadEnv) (w : World),
        0 ≤ env.res.ret → admitted_by err_mask env.frame.can_id →
        ∃ e c, (Node.read render node env w).2 = Outcome.throws e ∧ fault_of e = some c ∧
          c ≠ FaultCondition.UnknownProtocolError) ∧
      (∀ (render : can_frame → String) (node : Node) (w : World) (c : FaultCondition),
        c ≠ FaultCondition.UnknownProtocolError →
        ∃ frame : can_frame, admitted_by err_mask frame.can_id ∧
          ∃ e, (Node.read render node { res := { ret := 16, err := 0 }, frame := frame } w).2 =
            Outcome.throws e ∧ fault_of e = some c) := by
  have hmask : err_mask = 0x1FF := by decide
  refine ⟨hmask, by decide, ?_, ?_, ?_⟩
  · intro env w ifname hfit hsock hioctl hbind
    rw [← hmask]
    by_cases hm : env.setsockopt.ret < 0
    · rw [ctor_mask_fails env w ifname hfit hsock hioctl hbind hm]
    · rw [ctor_succeeds env w ifname hfit hsock hioctl hbind (not_lt.mp hm)]
  · intro render node env w hread hadm
    exact ⟨_, spec_fault env.frame.can_id, read_error_frame render node env w hread hadm.1,
      fault_of_exception_of _ _, spec_fault_named _ (admitted_meets_mask _ hadm)⟩
  · intro render node w c hc
    obtain ⟨can_id, hadm, hfault⟩ := named_fault_has_admitted_frame c hc
    refine ⟨{ can_frame.zero with can_id := can_id }, hadm, _,
      read_error_frame render node _ w (show (0 : Int) ≤ 16 by decide) hadm.1, ?_⟩
    rw [fault_of_exception_of]
    exact congrArg some hfault

/-- Witness of C9 on the frame with the lost-arbitration and bus-off bits. -/
theorem err_mask_matches_fault_classes_witness :
    ∃ e c, (Node.read sample_render sample_node (delivers lostarb_busoff_frame) sample_world).2 =
        Outcome.throws e ∧ fault_of e = some c ∧ c ≠ FaultCondition.UnknownProtocolError :=
  err_mask_matches_fault_classes.2.2.2.1 sample_render sample_node (delivers lostarb_busoff_frame)
    sample_world (by decide) (by decide)

/-! ## Write followed by read over a loopback channel -/

/-- C10: `Node::write` validates nothing: when the channel accepts the whole
frame it returns for every identifier, and the frame it handed over is the one
built from the payload and the identifier. `Node::read` of that frame returns
the same payload when bit 0x20000000 of the identifier is clear, and throws a
fault instead when that bit is set. -/
theorem write_read_round_trip (render : can_frame → String) (writer reader : Node)
    (w w2 : World) (rres : SysRet) (data : Bytes8) (can_id : Nat) (hread : 0 ≤ rres.ret) :
    (Node.write render writer { ret := 16, err := 0 } w data can_id).2 = Outcome.returns () ∧
      ∃ frame : can_frame,
        (Node.write render writer { ret := 16, err := 0 } w data can_id).1.last_written =
          some frame ∧
        (can_id &&& 0x20000000 = 0 →
          (Node.read render reader { res := rres, frame := frame } w2).2 =
            Outcome.returns data) ∧
        (can_id &&& 0x20000000 ≠ 0 →
          ∃ e, (Node.read render reader { res := rres, frame := frame } w2).2 =
            Outcome.throws e ∧ (fault_of e).isSome = true) := by
  refine ⟨?_, Node.write_frame data can_id, ?_, ?_, ?_⟩
  · have h : to_size_t 16 = sizeof_can_frame := by decide
    simp [Node.write, h]
  · simp [World.last_written, write_trace]
  · intro h
    have hd : (Node.write_frame data can_id).data = data := by rw [write_frame_eq]
    have hid : (Node.write_frame data can_id).can_id = can_id := by rw [write_frame_eq]
    rw [read_data_frame render reader _ w2 hread (by rw [hid]; exact h), hd]
  · intro h
    have hid : (Node.write_frame data can_id).can_id = can_id := by rw [write_frame_eq]
    refine ⟨_, read_error_frame render reader _ w2 hread (by rw [hid]; exact h), ?_⟩
    rw [fault_of_exception_of]
    rfl

/-- Witness of C10 on the request identifier 0x141. -/
theorem write_read_round_trip_witness :
    (Node.write sample_render sample_node { ret := 16, err := 0 } sample_world
        sample_payload 0x141).2 = Outcome.returns () ∧
      ∃ frame : can_frame,
        (Node.write sample_render sample_node { ret := 16, err := 0 } sample_world
            sample_payload 0x141).1.last_written = some frame ∧
        (0x141 &&& 0x20000000 = 0 →
          (Node.read sample_render sample_node { res := { ret := 16, err := 0 }, frame := frame }
              sample_world).2 = Outcome.returns sample_payload) ∧
        (0x141 &&& 0x20000000 ≠ 0 →
          ∃ e, (Node.read sample_render sample_node
              { res := { ret := 16, err := 0 }, frame := frame } sample_world).2 =
            Outcome.throws e ∧ (fault_of e).isSome = true) :=
  write_read_round_trip sample_render sample_node sample_node sample_world sample_world
    { ret := 16, err := 0 } sample_payload 0x141 (by decide)

end can
end myactuator_rmd_driver
